import Mathlib

/-!
Verification development for the tool execution and self-repair engine
(`app/tools/executor.py` and its registry collaborator).  The Python code is
shallowly embedded: JSON-like values become an inductive tree type, the
per-phase repair loop becomes a structural recursion over the remaining
budget, and the whole `execute_tool` pipeline becomes a pure function over an
environment that fixes the behaviour of its external collaborators (registry,
sandboxed adapter runs, subprocess, repair oracle).
-/

namespace GdpExec

/-- Classification of a Python float as far as JSON hygiene is concerned.
Finite doubles are abstracted by a rational payload; the three non-finite
values (the only ones `_sanitize_json_floats` treats specially) are explicit
constructors. -/
inductive FVal where
  | val (q : Rat) : FVal
  | nan : FVal
  | inf : FVal
  | ninf : FVal
deriving DecidableEq

/-- Whether the float is finite, i.e. neither NaN nor an infinity.  Mirrors
the negation of the test on executor.py line 294. -/
def FVal.isFinite : FVal → Bool
  | .val _ => true
  | _ => false

mutual

/-- JSON-like value tree: the domain over which the BOP objects of the executor,
tool outputs and the sanitizer operate (dicts, lists, floats, ints, strings,
booleans, null). -/
inductive JVal where
  | null : JVal
  | boolV (b : Bool) : JVal
  | intV (n : Int) : JVal
  | fltV (f : FVal) : JVal
  | strV (s : String) : JVal
  | arr (xs : JArr) : JVal
  | obj (kvs : JObj) : JVal

/-- A JSON array (Python list) of values. -/
inductive JArr where
  | nil : JArr
  | cons (hd : JVal) (tl : JArr) : JArr

/-- A JSON object (Python dict) as an ordered key/value list. -/
inductive JObj where
  | nil : JObj
  | cons (k : String) (v : JVal) (tl : JObj) : JObj

end

mutual

/-- Embedding of `_sanitize_json_floats` (executor.py lines 263-300): walk
the tree, replace every non-finite float by null, and report whether any
replacement happened. -/
def sanitize_json_floats : JVal → JVal × Bool
  | .obj kvs => (JVal.obj (sanitizeObj kvs).1, (sanitizeObj kvs).2)
  | .arr xs => (JVal.arr (sanitizeArr xs).1, (sanitizeArr xs).2)
  | .fltV f => if f.isFinite then (JVal.fltV f, false) else (JVal.null, true)
  | v => (v, false)

/-- List clause of the sanitizer (the `isinstance(obj, list)` branch). -/
def sanitizeArr : JArr → JArr × Bool
  | .nil => (JArr.nil, false)
  | .cons hd tl =>
      (JArr.cons (sanitize_json_floats hd).1 (sanitizeArr tl).1,
        (sanitize_json_floats hd).2 || (sanitizeArr tl).2)

/-- Dict clause of the sanitizer (the `isinstance(obj, dict)` branch). -/
def sanitizeObj : JObj → JObj × Bool
  | .nil => (JObj.nil, false)
  | .cons k v tl =>
      (JObj.cons k (sanitize_json_floats v).1 (sanitizeObj tl).1,
        (sanitize_json_floats v).2 || (sanitizeObj tl).2)

end

mutual

/-- Returns `true` iff the tree contains no non-finite float anywhere.  On this JSON
domain this is exactly acceptance by a strict JSON encoder
(`json.dumps(..., allow_nan=False)`). -/
def noNonFinite : JVal → Bool
  | .obj kvs => noNonFiniteObj kvs
  | .arr xs => noNonFiniteArr xs
  | .fltV f => f.isFinite
  | _ => true

/-- Array clause of `noNonFinite`. -/
def noNonFiniteArr : JArr → Bool
  | .nil => true
  | .cons hd tl => noNonFinite hd && noNonFiniteArr tl

/-- Object clause of `noNonFinite`. -/
def noNonFiniteObj : JObj → Bool
  | .nil => true
  | .cons _ v tl => noNonFinite v && noNonFiniteObj tl

end

mutual

theorem sanitize_noBad : ∀ v : JVal, noNonFinite (sanitize_json_floats v).1 = true
  | .null => rfl
  | .boolV _ => rfl
  | .intV _ => rfl
  | .strV _ => rfl
  | .fltV f => by
      cases f <;> simp [sanitize_json_floats, noNonFinite, FVal.isFinite]
  | .arr xs => by
      simpa [sanitize_json_floats, noNonFinite] using sanitize_noBadArr xs
  | .obj kvs => by
      simpa [sanitize_json_floats, noNonFinite] using sanitize_noBadObj kvs

theorem sanitize_noBadArr : ∀ xs : JArr, noNonFiniteArr (sanitizeArr xs).1 = true
  | .nil => rfl
  | .cons hd tl => by
      simp [sanitizeArr, noNonFiniteArr, sanitize_noBad hd, sanitize_noBadArr tl]

theorem sanitize_noBadObj : ∀ kvs : JObj, noNonFiniteObj (sanitizeObj kvs).1 = true
  | .nil => rfl
  | .cons k v tl => by
      simp [sanitizeObj, noNonFiniteObj, sanitize_noBad v, sanitize_noBadObj tl]

end

mutual

theorem sanitize_noop : ∀ v : JVal, noNonFinite v = true → sanitize_json_floats v = (v, false)
  | .null, _ => rfl
  | .boolV _, _ => rfl
  | .intV _, _ => rfl
  | .strV _, _ => rfl
  | .fltV f, h => by
      simp only [noNonFinite] at h
      simp [sanitize_json_floats, h]
  | .arr xs, h => by
      simp only [noNonFinite] at h
      simp [sanitize_json_floats, sanitize_noopArr xs h]
  | .obj kvs, h => by
      simp only [noNonFinite] at h
      simp [sanitize_json_floats, sanitize_noopObj kvs h]

theorem sanitize_noopArr : ∀ xs : JArr, noNonFiniteArr xs = true → sanitizeArr xs = (xs, false)
  | .nil, _ => rfl
  | .cons hd tl, h => by
      simp only [noNonFiniteArr, Bool.and_eq_true] at h
      simp [sanitizeArr, sanitize_noop hd h.1, sanitize_noopArr tl h.2]

theorem sanitize_noopObj : ∀ kvs : JObj, noNonFiniteObj kvs = true → sanitizeObj kvs = (kvs, false)
  | .nil, _ => rfl
  | .cons k v tl, h => by
      simp only [noNonFiniteObj, Bool.and_eq_true] at h
      simp [sanitizeObj, sanitize_noop v h.1, sanitize_noopObj tl h.2]

end

theorem sanitize_idem (v : JVal) :
    sanitize_json_floats (sanitize_json_floats v).1 = ((sanitize_json_floats v).1, false) :=
  sanitize_noop _ (sanitize_noBad v)

/-- The adapter pair held by the registry (`tool_models.AdapterCode`): the
pre-process and post-process source texts. -/
structure AdapterCode where
  pre_process_code : String
  post_process_code : String
deriving DecidableEq

/-- Outcome of `subprocess.run` when it completes before the timeout
(executor.py lines 450-458). -/
structure SubResult where
  stdout : String
  stderr : String
  returncode : Int
deriving DecidableEq

/-- State left behind by one per-phase repair loop (executor.py lines
528-553 for the pre phase, 659-683 for the post phase): the successful value
if any, the phase source that is current when the loop exits, the number of
`repair_adapter` consultations performed, and the last captured exception. -/
structure LoopOut (A : Type) where
  value : Option A
  code : String
  consultations : Nat
  lastErr : Option String

/-- Embedding of the `for attempt in range(MAX_AUTO_REPAIR_ATTEMPTS + 1)`
repair loop.  `run` is the sandboxed phase execution for the fixed call data,
`oracle` is `repair_adapter` (keyed by the failing source and the error
message; `none` models a declined repair).  The first argument is the number
of consultations still allowed (`k - attempt` in the Python loop): a failure
with budget left consults the oracle exactly once — the attempt counter is
incremented before the consultation, so a declined repair still counts — and
a failure with no budget left ends the loop with the last error. -/
def repairLoop {A : Type} (run : String → Except String A)
    (oracle : String → String → Option String) : Nat → String → LoopOut A
  | 0, code =>
      match run code with
      | .ok a => ⟨some a, code, 0, none⟩
      | .error e => ⟨none, code, 0, some e⟩
  | b + 1, code =>
      match run code with
      | .ok a => ⟨some a, code, 0, none⟩
      | .error e =>
          match oracle code e with
          | none => ⟨none, code, 1, some e⟩
          | some newCode =>
              let rest := repairLoop run oracle b newCode
              ⟨rest.value, rest.code, rest.consultations + 1, rest.lastErr⟩

theorem repairLoop_consultations_le {A : Type} (run : String → Except String A)
    (oracle : String → String → Option String) :
    ∀ (b : Nat) (c : String), (repairLoop run oracle b c).consultations ≤ b := by
  intro b
  induction b with
  | zero =>
      intro c
      unfold repairLoop
      cases run c <;> simp
  | succ b ih =>
      intro c
      unfold repairLoop
      cases hr : run c with
      | ok a => simp
      | error e =>
          cases ho : oracle c e with
          | none => simp [ho]
          | some nc => simpa [ho] using ih nc

/-- Constant `SUBPROCESS_TIMEOUT_SEC` (executor.py line 23). -/
def SUBPROCESS_TIMEOUT_SEC : Nat := 60

/-- Environment of one `execute_tool` call: the configured repair budget
(`MAX_AUTO_REPAIR_ATTEMPTS`), the registry lookup result, and the behaviour
of every external effect for the fixed per-call `bop_data`/`params`:
the sandboxed phase runs (`_run_preprocessor` / `_run_postprocessor` as
functions of the current source, raising = `Except.error`), the repair
oracle (`repair_adapter`, `none` = declined), the subprocess outcome
(`none` = `subprocess.TimeoutExpired`), the output file content observed
after the run (`none` = missing or unreadable), the domain backfill
`_ensure_process_completeness` (reaching the surrounding `except` block on
`Except.error`), and whether `update_tool_adapter` reports success. -/
structure ExecEnv where
  maxRepair : Nat
  toolId : String
  fileName : String
  registry : Option AdapterCode
  scriptExists : Bool
  runPre : String → Except String String
  preOracle : String → String → Option String
  sub : Option SubResult
  outFileContent : Option String
  runPost : String → String → Except String JVal
  postOracle : String → String → Option String
  ensureCompleteness : JVal → Except String JVal
  registryWriteOk : Bool

/-- The dictionary `execute_tool` returns.  Each optional field is `none`
exactly when the corresponding key is absent from the returned dict (or set
to Python `None`) on that path. -/
structure ExecResult where
  success : Bool
  message : String
  updated_bop : Option JVal
  tool_input : Option String
  tool_output : Option String
  stdout : Option String
  stderr : Option String
  auto_repair_attempted : Option Bool
  auto_repaired : Option Bool

/-- Result of one `execute_tool` call together with the observable
trace: per-phase oracle consultation counts (the shared
`exec_log["auto_repair_attempts"]` counter is their sum), whether the
registry write-back at lines 727-737 was executed, the phase sources that
are active when the call ends, and the resolved tool output text (set once
the subprocess phase completed with exit status zero). -/
structure ExecOutcome where
  result : ExecResult
  preConsultations : Nat
  postConsultations : Nat
  registryWritten : Bool
  finalPre : String
  finalPost : String
  resolvedOutput : Option String

/-- Total number of `repair_adapter` consultations in the call; also the
final value of the `exec_log["auto_repair_attempts"]` counter, which is
incremented exactly once per consultation. -/
def ExecOutcome.consultations (o : ExecOutcome) : Nat :=
  o.preConsultations + o.postConsultations

/-- Python `s[:n] if s else None`. -/
def optTrunc (n : Nat) (s : String) : Option String :=
  if s = "" then none else some (s.take n)

/-- Output resolution after a zero-exit subprocess run (executor.py lines
620-634): the output file content when it exists, was readable and is
non-empty; captured stdout otherwise (`if not tool_output`). -/
def resolveToolOutput : Option String → String → String
  | some s, out => if s = "" then out else s
  | none, out => out

/-- Failure result for an unknown tool id (executor.py line 481). -/
def noToolOutcome (env : ExecEnv) : ExecOutcome where
  result :=
    { success := false
      message := "도구 " ++ env.toolId ++ "를 찾을 수 없습니다."
      updated_bop := none, tool_input := none, tool_output := none
      stdout := none, stderr := none
      auto_repair_attempted := none, auto_repaired := none }
  preConsultations := 0
  postConsultations := 0
  registryWritten := false
  finalPre := ""
  finalPost := ""
  resolvedOutput := none

/-- Failure result for a missing script file (executor.py line 489). -/
def noScriptOutcome (env : ExecEnv) (adapter : AdapterCode) : ExecOutcome where
  result :=
    { success := false
      message := "스크립트 파일을 찾을 수 없습니다: " ++ env.fileName
      updated_bop := none, tool_input := none, tool_output := none
      stdout := none, stderr := none
      auto_repair_attempted := none, auto_repaired := none }
  preConsultations := 0
  postConsultations := 0
  registryWritten := false
  finalPre := adapter.pre_process_code
  finalPost := adapter.post_process_code
  resolvedOutput := none

/-- Failure result when the pre-process repair loop ends without a value
(executor.py lines 555-565). -/
def preFailOutcome (adapter : AdapterCode) (preLoop : LoopOut String) : ExecOutcome where
  result :=
    { success := false
      message := "Pre-processor 실행 오류: " ++ (preLoop.lastErr.getD "")
      updated_bop := none, tool_input := none, tool_output := none
      stdout := none, stderr := none
      auto_repair_attempted := some (decide (0 < preLoop.consultations))
      auto_repaired := none }
  preConsultations := preLoop.consultations
  postConsultations := 0
  registryWritten := false
  finalPre := preLoop.code
  finalPost := adapter.post_process_code
  resolvedOutput := none

/-- Failure result for `subprocess.TimeoutExpired` (executor.py lines
593-596). -/
def timeoutOutcome (adapter : AdapterCode) (preLoop : LoopOut String) : ExecOutcome where
  result :=
    { success := false
      message := "스크립트 실행이 " ++ toString SUBPROCESS_TIMEOUT_SEC ++ "초를 초과했습니다."
      updated_bop := none, tool_input := none, tool_output := none
      stdout := none, stderr := none
      auto_repair_attempted := none, auto_repaired := none }
  preConsultations := preLoop.consultations
  postConsultations := 0
  registryWritten := false
  finalPre := preLoop.code
  finalPost := adapter.post_process_code
  resolvedOutput := none

/-- Failure result for a non-zero subprocess exit status (executor.py lines
602-618): hard failure, no repair consultation for it. -/
def exitFailOutcome (adapter : AdapterCode) (preLoop : LoopOut String)
    (sr : SubResult) : ExecOutcome where
  result :=
    { success := false
      message := "스크립트가 오류 코드 " ++ toString sr.returncode ++ "로 종료되었습니다."
      updated_bop := none, tool_input := none, tool_output := none
      stdout := optTrunc 2000 sr.stdout
      stderr := optTrunc 2000 sr.stderr
      auto_repair_attempted := none, auto_repaired := none }
  preConsultations := preLoop.consultations
  postConsultations := 0
  registryWritten := false
  finalPre := preLoop.code
  finalPost := adapter.post_process_code
  resolvedOutput := none

/-- Failure result when the post-process repair loop ends without a value
(executor.py lines 685-701). -/
def postFailOutcome (preLoop : LoopOut String) (postLoop : LoopOut JVal)
    (sr : SubResult) (toolOutput : String) : ExecOutcome where
  result :=
    { success := false
      message := "Post-processor 실행 오류: " ++ (postLoop.lastErr.getD "")
      updated_bop := none, tool_input := none
      tool_output := optTrunc 2000 toolOutput
      stdout := optTrunc 2000 sr.stdout
      stderr := some ((if sr.stderr = "" then "" else sr.stderr.take 2000)
        ++ "\n\n[Post-processor Error]\n" ++ (postLoop.lastErr.getD "").take 1000)
      auto_repair_attempted :=
        some (decide (0 < preLoop.consultations + postLoop.consultations))
      auto_repaired := none }
  preConsultations := preLoop.consultations
  postConsultations := postLoop.consultations
  registryWritten := false
  finalPre := preLoop.code
  finalPost := postLoop.code
  resolvedOutput := some toolOutput

/-- Failure result produced by the surrounding `except Exception` block
(executor.py lines 762-769), reached in this model when
`_ensure_process_completeness` raises. -/
def outerCatchOutcome (preLoop : LoopOut String) (postLoop : LoopOut JVal)
    (toolOutput : String) (e : String) : ExecOutcome where
  result :=
    { success := false
      message := "실행 오류: " ++ e
      updated_bop := none, tool_input := none, tool_output := none
      stdout := none, stderr := none
      auto_repair_attempted := none, auto_repaired := none }
  preConsultations := preLoop.consultations
  postConsultations := postLoop.consultations
  registryWritten := false
  finalPre := preLoop.code
  finalPost := postLoop.code
  resolvedOutput := some toolOutput

/-- Success message (executor.py lines 740-742): the base text plus the
repair-count note when the shared attempt counter is positive. -/
def successMessage (consultations : Nat) : String :=
  "도구 실행이 완료되었습니다." ++
    (if 0 < consultations then
      " (자동 복구 " ++ toString consultations ++ "회 수행)" else "")

/-- Success result (executor.py lines 703-760): backfill, sanitize, write the
adapter back when either active source changed, then return the success
dict.  `json.dumps(updated_bop)` runs with its default `allow_nan=True`, so
on this JSON value domain the serialization-failure branch (lines 713-725)
cannot fire and is not a reachable path of the model. -/
def successOutcome (env : ExecEnv) (adapter : AdapterCode) (preLoop : LoopOut String)
    (postLoop : LoopOut JVal) (toolInput toolOutput : String) (sr : SubResult)
    (ensured : JVal) : ExecOutcome :=
  let changed :=
    decide (preLoop.code ≠ adapter.pre_process_code) ||
      decide (postLoop.code ≠ adapter.post_process_code)
  { result :=
      { success := true
        message := successMessage (preLoop.consultations + postLoop.consultations)
        updated_bop := some (sanitize_json_floats ensured).1
        tool_input := if toolInput = "" then none else some toolInput
        tool_output := if toolOutput = "" then none else some toolOutput
        stdout := optTrunc 2000 sr.stdout
        stderr := optTrunc 500 sr.stderr
        auto_repair_attempted := none
        auto_repaired := some (changed && env.registryWriteOk) }
    preConsultations := preLoop.consultations
    postConsultations := postLoop.consultations
    registryWritten := changed
    finalPre := preLoop.code
    finalPost := postLoop.code
    resolvedOutput := some toolOutput }

/-- Dispatch on the post-process repair loop and the backfill (executor.py
lines 659-760). -/
def ensureDispatch (env : ExecEnv) (adapter : AdapterCode) (preLoop : LoopOut String)
    (postLoop : LoopOut JVal) (toolInput : String) (sr : SubResult)
    (toolOutput : String) : ExecOutcome :=
  match postLoop.value with
  | none => postFailOutcome preLoop postLoop sr toolOutput
  | some updated0 =>
      match env.ensureCompleteness updated0 with
      | .error e => outerCatchOutcome preLoop postLoop toolOutput e
      | .ok ensured =>
          successOutcome env adapter preLoop postLoop toolInput toolOutput sr ensured

/-- Run the post-process repair loop on the resolved output text. -/
def postDispatch (env : ExecEnv) (adapter : AdapterCode) (preLoop : LoopOut String)
    (toolInput : String) (sr : SubResult) (toolOutput : String) : ExecOutcome :=
  ensureDispatch env adapter preLoop
    (repairLoop (fun c => env.runPost c toolOutput) env.postOracle env.maxRepair
      adapter.post_process_code)
    toolInput sr toolOutput

/-- Pipeline stage after a zero-exit subprocess run: resolve the output text,
then run the post phase (executor.py lines 620-760). -/
def afterSub (env : ExecEnv) (adapter : AdapterCode) (preLoop : LoopOut String)
    (toolInput : String) (sr : SubResult) : ExecOutcome :=
  postDispatch env adapter preLoop toolInput sr
    (resolveToolOutput env.outFileContent sr.stdout)

/-- Pipeline stage after a successful pre-process phase: run the subprocess
and dispatch on its outcome (executor.py lines 585-618). -/
def afterPre (env : ExecEnv) (adapter : AdapterCode) (preLoop : LoopOut String)
    (toolInput : String) : ExecOutcome :=
  match env.sub with
  | none => timeoutOutcome adapter preLoop
  | some sr =>
      if sr.returncode ≠ 0 then exitFailOutcome adapter preLoop sr
      else afterSub env adapter preLoop toolInput sr

/-- Dispatch on the pre-process repair loop (executor.py lines 528-565). -/
def preDispatch (env : ExecEnv) (adapter : AdapterCode)
    (preLoop : LoopOut String) : ExecOutcome :=
  match preLoop.value with
  | none => preFailOutcome adapter preLoop
  | some toolInput => afterPre env adapter preLoop toolInput

/-- Embedding of `execute_tool` (executor.py lines 463-777): registry lookup,
script check, pre-process repair loop, subprocess, output resolution,
post-process repair loop, backfill, sanitization, conditional registry
write-back. -/
def executeTool (env : ExecEnv) : ExecOutcome :=
  match env.registry with
  | none => noToolOutcome env
  | some adapter =>
      if env.scriptExists = false then noScriptOutcome env adapter
      else
        preDispatch env adapter
          (repairLoop env.runPre env.preOracle env.maxRepair adapter.pre_process_code)

/-- A function bound in the sandbox namespace after `exec`: its declared
parameter count as seen by `inspect.signature`, and the outcome of invoking
it with the two positional arguments `(bop_data, params or \x7b\x7d)` —
`Except.error` models an exception raised by the call (including the
`TypeError` for unbindable arguments), and the `ok` payload is the returned
value after the non-string coercion through `json.dumps`. -/
structure SandboxFn where
  paramCount : Nat
  callOutcome : Except String String

/-- Outcome of `_run_preprocessor` for one source. -/
inductive PreRunOutcome where
  | definitionError : PreRunOutcome
  | signatureError : PreRunOutcome
  | raised (e : String) : PreRunOutcome
  | ok (s : String) : PreRunOutcome
deriving DecidableEq

/-- Embedding of `_run_preprocessor` (executor.py lines 354-380) from the
point where the source has been executed in the sandbox namespace:
`defined` is the namespace lookup of `convert_bop_to_input` (`none` = not
defined).  The signature check `len(sig.parameters) < 2` runs before the
call; the boolean reports whether the bound function was invoked. -/
def run_preprocessor_model (defined : Option SandboxFn) : PreRunOutcome × Bool :=
  match defined with
  | none => (.definitionError, false)
  | some fn =>
      if fn.paramCount < 2 then (.signatureError, false)
      else
        match fn.callOutcome with
        | .ok s => (.ok s, true)
        | .error e => (.raised e, true)

/-- The `safe_modules` set of `_safe_builtins` (executor.py line 343). -/
def safe_modules : List String := ["json", "csv", "io", "math", "statistics", "copy", "re"]

/-- One top-level statement of an adapter source executed by `exec`:
either an ordinary statement, whose observable effect is recorded under a
tag, or an import statement routed through `restricted_import`. -/
inductive AdapterStmt where
  | effect (tag : String) : AdapterStmt
  | impMod (m : String) : AdapterStmt
deriving DecidableEq

/-- Message of the `ImportError` raised by `restricted_import`
(executor.py line 347). -/
def disallowedImportMsg (m : String) : String :=
  m ++ " 모듈은 어댑터 코드에서 사용할 수 없습니다."

/-- Effect recorded when a statement executes successfully. -/
def stmtEffect : AdapterStmt → String
  | .effect t => t
  | .impMod m => "import " ++ m

/-- Whether a statement executes without raising in the restricted
namespace. -/
def stmtAllowed : AdapterStmt → Bool
  | .effect _ => true
  | .impMod m => decide (m ∈ safe_modules)

/-- Sequential execution of an adapter body under `_safe_builtins`
(executor.py lines 328-351 with the `exec` calls at 367/394): statements run
in order; an import outside `safe_modules` raises `ImportError` at its own
position, ending execution there.  Returns the effects that did execute and
the error, if any. -/
def execAdapterBody : List AdapterStmt → List String × Option String
  | [] => ([], none)
  | .effect t :: rest =>
      let r := execAdapterBody rest
      (t :: r.1, r.2)
  | .impMod m :: rest =>
      if m ∈ safe_modules then
        let r := execAdapterBody rest
        (("import " ++ m) :: r.1, r.2)
      else ([], some (disallowedImportMsg m))

/-- A fragment of the Python heap: cell contents by address, the next fresh
address, and the address currently bound to the local name `bop_data`. -/
structure PyHeap where
  cell : Nat → JVal
  next : Nat
  bop_ptr : Nat

/-- Heap at the start of `execute_tool`: the dict of the caller lives at address
0 and `bop_data` is an alias of it. -/
def initHeap (caller : JVal) : PyHeap where
  cell := fun i => if i = 0 then caller else JVal.null
  next := 1
  bop_ptr := 0

/-- Step `bop_data = copy.deepcopy(bop_data)` (executor.py line 476): allocate a
fresh cell holding a structural copy of the current object and rebind the
local name to it; the original cell is untouched. -/
def deepcopyBop (h : PyHeap) : PyHeap where
  cell := Function.update h.cell h.next (h.cell h.bop_ptr)
  next := h.next + 1
  bop_ptr := h.next

/-- An in-place mutation of the object bound to `bop_data`, as adapter code
may perform during the pre- or post-process phase. -/
def mutateBop (f : JVal → JVal) (h : PyHeap) : PyHeap where
  cell := Function.update h.cell h.bop_ptr (f (h.cell h.bop_ptr))
  next := h.next
  bop_ptr := h.bop_ptr

/-- Heap evolution of one `execute_tool` call as far as the object of the caller
is concerned: the deepcopy at entry, then every in-place mutation the
executed adapter code applies to its `bop_data` argument, in order. -/
def executeToolHeap (muts : List (JVal → JVal)) (caller : JVal) : PyHeap :=
  muts.foldl (fun h f => mutateBop f h) (deepcopyBop (initHeap caller))

theorem append_length_pos (s t : String) (h : 0 < s.length) : 0 < (s ++ t).length := by
  rw [String.length_append]
  omega

/-- C8: the sanitizer removes every non-finite float from any tree, is
idempotent (`sanitize (sanitize x).1 = ((sanitize x).1, false)`), and is a
no-op with `was_modified = false` on any tree that already contains no
non-finite value. -/
theorem sanitizer_idempotent_and_total (v : JVal) :
    noNonFinite (sanitize_json_floats v).1 = true ∧
    sanitize_json_floats (sanitize_json_floats v).1 = ((sanitize_json_floats v).1, false) ∧
    (noNonFinite v = true → sanitize_json_floats v = (v, false)) :=
  ⟨sanitize_noBad v, sanitize_idem v, sanitize_noop v⟩

/-- Witness for C8 at a concrete clean tree. -/
theorem sanitizer_idempotent_and_total_witness :
    sanitize_json_floats (JVal.arr (JArr.cons (JVal.fltV (FVal.val 1)) JArr.nil)) =
      (JVal.arr (JArr.cons (JVal.fltV (FVal.val 1)) JArr.nil), false) :=
  (sanitizer_idempotent_and_total
    (JVal.arr (JArr.cons (JVal.fltV (FVal.val 1)) JArr.nil))).2.2 (by decide)

theorem ensureDispatch_success_shape (env : ExecEnv) (adapter : AdapterCode)
    (preLoop : LoopOut String) (postLoop : LoopOut JVal) (toolInput : String)
    (sr : SubResult) (toolOutput : String) :
    (ensureDispatch env adapter preLoop postLoop toolInput sr toolOutput).result.success = true →
    ∃ v : JVal,
      (ensureDispatch env adapter preLoop postLoop toolInput sr toolOutput).result.updated_bop
        = some v ∧ noNonFinite v = true := by
  unfold ensureDispatch
  split
  · intro h
    simp [postFailOutcome] at h
  · split
    · intro h
      simp [outerCatchOutcome] at h
    · intro _
      exact ⟨_, rfl, sanitize_noBad _⟩

theorem executeTool_success_shape (env : ExecEnv) :
    (executeTool env).result.success = true →
    ∃ v : JVal, (executeTool env).result.updated_bop = some v ∧ noNonFinite v = true := by
  unfold executeTool
  split
  · intro h
    simp [noToolOutcome] at h
  · split
    · intro h
      simp [noScriptOutcome] at h
    · unfold preDispatch
      split
      · intro h
        simp [preFailOutcome] at h
      · unfold afterPre
        split
        · intro h
          simp [timeoutOutcome] at h
        · split
          · intro h
            simp [exitFailOutcome] at h
          · unfold afterSub postDispatch
            exact ensureDispatch_success_shape _ _ _ _ _ _ _

/-- C2: whenever `execute_tool` returns `success = true`, the returned
`updated_bop` is present and contains no non-finite numeric value anywhere
in its tree, hence is accepted by a strict JSON encoder
(`noNonFinite`). -/
theorem success_implies_sanitized_bop (env : ExecEnv) :
    (executeTool env).result.success = true →
    ∃ v : JVal, (executeTool env).result.updated_bop = some v ∧ noNonFinite v = true :=
  executeTool_success_shape env

/-- A concrete environment on which the whole pipeline succeeds: the
post-processor even returns a NaN, which sanitization scrubs. -/
def envHappy : ExecEnv where
  maxRepair := 0
  toolId := "takt_time_optimizer"
  fileName := "takt.py"
  registry := some ⟨"PRE-SRC", "POST-SRC"⟩
  scriptExists := true
  runPre := fun _ => .ok "IN"
  preOracle := fun _ _ => none
  sub := some ⟨"captured-stdout", "", 0⟩
  outFileContent := some "OUT"
  runPost := fun _ _ => .ok (JVal.obj (JObj.cons "takt" (JVal.fltV FVal.nan) JObj.nil))
  postOracle := fun _ _ => none
  ensureCompleteness := fun v => .ok v
  registryWriteOk := true

/-- Witness for C2 at `envHappy`. -/
theorem success_implies_sanitized_bop_witness :
    ∃ v : JVal, (executeTool envHappy).result.updated_bop = some v ∧ noNonFinite v = true :=
  success_implies_sanitized_bop envHappy rfl

/-- C3: `execute_tool` always returns a structured result — modelled by the
totality of `executeTool` over every environment — and every result with
`success = false` carries a non-empty human-readable message. -/
theorem structured_result_always (env : ExecEnv) :
    (executeTool env).result.success = true ∨
      ((executeTool env).result.success = false ∧
        0 < (executeTool env).result.message.length) := by
  unfold executeTool
  split
  · refine Or.inr ⟨rfl, ?_⟩
    repeat apply append_length_pos
    decide
  · split
    · refine Or.inr ⟨rfl, ?_⟩
      repeat apply append_length_pos
      decide
    · unfold preDispatch
      split
      · refine Or.inr ⟨rfl, ?_⟩
        repeat apply append_length_pos
        decide
      · unfold afterPre
        split
        · refine Or.inr ⟨rfl, ?_⟩
          repeat apply append_length_pos
          decide
        · split
          · refine Or.inr ⟨rfl, ?_⟩
            repeat apply append_length_pos
            decide
          · unfold afterSub postDispatch ensureDispatch
            split
            · refine Or.inr ⟨rfl, ?_⟩
              repeat apply append_length_pos
              decide
            · split
              · refine Or.inr ⟨rfl, ?_⟩
                repeat apply append_length_pos
                decide
              · exact Or.inl rfl

theorem executeTool_phase_budget (env : ExecEnv) :
    (executeTool env).preConsultations ≤ env.maxRepair ∧
      (executeTool env).postConsultations ≤ env.maxRepair := by
  unfold executeTool
  split
  · exact ⟨Nat.zero_le _, Nat.zero_le _⟩
  · split
    · exact ⟨Nat.zero_le _, Nat.zero_le _⟩
    · unfold preDispatch
      split
      · exact ⟨repairLoop_consultations_le _ _ _ _, Nat.zero_le _⟩
      · unfold afterPre
        split
        · exact ⟨repairLoop_consultations_le _ _ _ _, Nat.zero_le _⟩
        · split
          · exact ⟨repairLoop_consultations_le _ _ _ _, Nat.zero_le _⟩
          · unfold afterSub postDispatch ensureDispatch
            split
            · exact ⟨repairLoop_consultations_le _ _ _ _,
                repairLoop_consultations_le _ _ _ _⟩
            · split
              · exact ⟨repairLoop_consultations_le _ _ _ _,
                  repairLoop_consultations_le _ _ _ _⟩
              · exact ⟨repairLoop_consultations_le _ _ _ _,
                  repairLoop_consultations_le _ _ _ _⟩

/-- C1 (amended): within one `execute_tool` call each phase consults the
oracle at most `maxRepair` times, so the call total — which is also the
reported attempt count — is at most `2 * maxRepair`, and with budget 0 no
consultation occurs at all.  (The per-call total is NOT bounded by
`maxRepair` itself; see the counterexample.) -/
theorem repair_budget_phasewise (env : ExecEnv) :
    (executeTool env).preConsultations ≤ env.maxRepair ∧
    (executeTool env).postConsultations ≤ env.maxRepair ∧
    (executeTool env).consultations ≤ 2 * env.maxRepair ∧
    (env.maxRepair = 0 → (executeTool env).consultations = 0) := by
  obtain ⟨h1, h2⟩ := executeTool_phase_budget env
  refine ⟨h1, h2, ?_, ?_⟩
  · unfold ExecOutcome.consultations
    omega
  · intro h
    unfold ExecOutcome.consultations
    omega

/-- Witness for the amended C1 bound at a budget-0 environment. -/
theorem repair_budget_phasewise_witness :
    (executeTool envHappy).consultations = 0 :=
  (repair_budget_phasewise envHappy).2.2.2 rfl

/-- Repair budget 1; the pre-processor fails once and is repaired, then the
post-processor fails once and is repaired: two oracle consultations. -/
def envDoubleRepair : ExecEnv where
  maxRepair := 1
  toolId := "t"
  fileName := "t.py"
  registry := some ⟨"p0", "q0"⟩
  scriptExists := true
  runPre := fun c => if c = "p1" then .ok "IN" else .error "pre failure"
  preOracle := fun _ _ => some "p1"
  sub := some ⟨"", "", 0⟩
  outFileContent := some "OUT"
  runPost := fun c _ => if c = "q1" then .ok JVal.null else .error "post failure"
  postOracle := fun _ _ => some "q1"
  ensureCompleteness := fun v => .ok v
  registryWriteOk := true

/-- C1 counterexample: with budget `k = 1`, one call performs two oracle
consultations (one in each phase), so the per-call total and the reported
attempt counter exceed `k`. -/
theorem repair_budget_combined_counterexample :
    envDoubleRepair.maxRepair = 1 ∧
    (executeTool envDoubleRepair).consultations = 2 ∧
    ¬ (executeTool envDoubleRepair).consultations ≤ envDoubleRepair.maxRepair := by
  exact ⟨rfl, by decide, by decide⟩

/-- C4: a non-zero subprocess exit status fails the attempt hard — even
though the environment may hold a populated output file — and the failure is
never routed to the repair loop: the post phase consults the oracle zero
times and no updated object is returned. -/
theorem nonzero_exit_hard_failure (env : ExecEnv) (adapter : AdapterCode)
    (sr : SubResult) (ti : String)
    (hreg : env.registry = some adapter)
    (hscript : env.scriptExists = true)
    (hpre : (repairLoop env.runPre env.preOracle env.maxRepair
      adapter.pre_process_code).value = some ti)
    (hsub : env.sub = some sr) (hrc : sr.returncode ≠ 0) :
    (executeTool env).result.success = false ∧
    (executeTool env).postConsultations = 0 ∧
    (executeTool env).result.updated_bop = none ∧
    (executeTool env).result.message =
      "스크립트가 오류 코드 " ++ toString sr.returncode ++ "로 종료되었습니다." := by
  have h1 : executeTool env =
      exitFailOutcome adapter
        (repairLoop env.runPre env.preOracle env.maxRepair adapter.pre_process_code) sr := by
    unfold executeTool preDispatch afterPre
    simp only [hreg, hscript, hpre, hsub]
    simp [hrc]
  rw [h1]
  exact ⟨rfl, rfl, rfl, rfl⟩

/-- Environment for the C4 witness: the script exits with status 1 while the
output file is nonetheless populated. -/
def envExitOne : ExecEnv where
  maxRepair := 3
  toolId := "t"
  fileName := "t.py"
  registry := some ⟨"P", "Q"⟩
  scriptExists := true
  runPre := fun _ => .ok "IN"
  preOracle := fun _ _ => none
  sub := some ⟨"partial", "boom", 1⟩
  outFileContent := some "written-anyway"
  runPost := fun _ _ => .ok JVal.null
  postOracle := fun _ _ => some "Q2"
  ensureCompleteness := fun v => .ok v
  registryWriteOk := true

/-- Witness for C4 at `envExitOne`. -/
theorem nonzero_exit_hard_failure_witness :
    (executeTool envExitOne).result.success = false ∧
    (executeTool envExitOne).postConsultations = 0 ∧
    (executeTool envExitOne).result.updated_bop = none ∧
    (executeTool envExitOne).result.message =
      "스크립트가 오류 코드 " ++ toString (1 : Int) ++ "로 종료되었습니다." :=
  nonzero_exit_hard_failure envExitOne ⟨"P", "Q"⟩ ⟨"partial", "boom", 1⟩ "IN"
    rfl rfl rfl rfl (by decide)

/-- C9: the registry write-back happens only on the success path, and there
exactly when the final active pre- or post-process source differs from what
was loaded from the registry at the start of the call. -/
theorem registry_write_iff_changed (env : ExecEnv) :
    ((executeTool env).registryWritten = true → (executeTool env).result.success = true) ∧
    (∀ adapter : AdapterCode, env.registry = some adapter →
      ((executeTool env).registryWritten = true ↔
        ((executeTool env).result.success = true ∧
          ((executeTool env).finalPre ≠ adapter.pre_process_code ∨
            (executeTool env).finalPost ≠ adapter.post_process_code)))) := by
  constructor
  · unfold executeTool
    split
    · intro h
      simp [noToolOutcome] at h
    · split
      · intro h
        simp [noScriptOutcome] at h
      · unfold preDispatch
        split
        · intro h
          simp [preFailOutcome] at h
        · unfold afterPre
          split
          · intro h
            simp [timeoutOutcome] at h
          · split
            · intro h
              simp [exitFailOutcome] at h
            · unfold afterSub postDispatch ensureDispatch
              split
              · intro h
                simp [postFailOutcome] at h
              · split
                · intro h
                  simp [outerCatchOutcome] at h
                · intro _
                  rfl
  · intro adapter hreg
    unfold executeTool
    simp only [hreg]
    split
    · simp [noScriptOutcome]
    · unfold preDispatch
      split
      · simp [preFailOutcome]
      · unfold afterPre
        split
        · simp [timeoutOutcome]
        · split
          · simp [exitFailOutcome]
          · unfold afterSub postDispatch ensureDispatch
            split
            · simp [postFailOutcome]
            · split
              · simp [outerCatchOutcome]
              · simp [successOutcome, Bool.or_eq_true, decide_eq_true_eq]

/-- Witness for C9 at `envDoubleRepair`: the call succeeds with repaired
sources, so the write-back fires. -/
theorem registry_write_iff_changed_witness :
    (executeTool envDoubleRepair).registryWritten = true :=
  ((registry_write_iff_changed envDoubleRepair).2 ⟨"p0", "q0"⟩ rfl).mpr
    ⟨by decide, Or.inl (by decide)⟩

/-- Subprocess exits 0 with a populated output file whose content also
matches the captured stdout. -/
def envOutFile : ExecEnv where
  maxRepair := 0
  toolId := "t"
  fileName := "t.py"
  registry := some ⟨"P", "Q"⟩
  scriptExists := true
  runPre := fun _ => .ok "IN"
  preOracle := fun _ _ => none
  sub := some ⟨"X", "", 0⟩
  outFileContent := some "X"
  runPost := fun _ o => .ok (JVal.strV o)
  postOracle := fun _ _ => none
  ensureCompleteness := fun v => .ok v
  registryWriteOk := true

/-- Same call but with the output file missing, so stdout is substituted. -/
def envOutFallback : ExecEnv :=
  { envOutFile with outFileContent := none }

/-- Same call with no output file and empty stdout. -/
def envNoOutput : ExecEnv :=
  { envOutFile with outFileContent := none, sub := some ⟨"", "", 0⟩ }

/-- C5 counterexample: (a) the run that used the output file and the run
that fell back to stdout return byte-identical results — the fallback is
not recorded in the result; (b) with neither an output file nor stdout the
call does not fail with a NoOutputProduced error: the empty string is passed
on to the post-processor and the call succeeds. -/
theorem output_fallback_counterexample :
    envOutFile.outFileContent ≠ envOutFallback.outFileContent ∧
    executeTool envOutFile = executeTool envOutFallback ∧
    (executeTool envNoOutput).result.success = true := by
  exact ⟨by decide, rfl, rfl⟩

/-- C5 (amended): after a zero-exit run the output is resolved as: the
output file content when present and non-empty, captured stdout otherwise
(including when both are empty, in which case the empty string is passed
on); the substitution leaves no trace in the returned result. -/
theorem output_resolution_order (env : ExecEnv) (adapter : AdapterCode)
    (sr : SubResult) (ti : String)
    (hreg : env.registry = some adapter)
    (hscript : env.scriptExists = true)
    (hpre : (repairLoop env.runPre env.preOracle env.maxRepair
      adapter.pre_process_code).value = some ti)
    (hsub : env.sub = some sr) (hrc : sr.returncode = 0) :
    (executeTool env).resolvedOutput =
      some (resolveToolOutput env.outFileContent sr.stdout) ∧
    (∀ s : String, env.outFileContent = some s → s ≠ "" →
      resolveToolOutput env.outFileContent sr.stdout = s) ∧
    (env.outFileContent = none →
      resolveToolOutput env.outFileContent sr.stdout = sr.stdout) := by
  have h1 : executeTool env = afterSub env adapter
      (repairLoop env.runPre env.preOracle env.maxRepair adapter.pre_process_code) ti sr := by
    unfold executeTool preDispatch afterPre
    simp only [hreg, hscript, hpre, hsub]
    simp [hrc]
  refine ⟨?_, ?_, ?_⟩
  · rw [h1]
    unfold afterSub postDispatch ensureDispatch
    split
    · rfl
    · split
      · rfl
      · rfl
  · intro s hs hne
    rw [hs]
    simp [resolveToolOutput, hne]
  · intro hnone
    rw [hnone]
    rfl

/-- Witness for the amended C5 resolution order at `envOutFile`. -/
theorem output_resolution_order_witness :
    (executeTool envOutFile).resolvedOutput =
      some (resolveToolOutput envOutFile.outFileContent "X") :=
  (output_resolution_order envOutFile ⟨"P", "Q"⟩ ⟨"X", "", 0⟩ "IN"
    rfl rfl rfl rfl rfl).1

/-- A pre-process function declared with three parameters (the third with a
default value), so calling it with two positional arguments succeeds. -/
def fnThreeParams : SandboxFn :=
  ⟨3, .ok "payload"⟩

/-- C6 counterexample: the signature check is `len(sig.parameters) < 2`, so
a function whose declared arity is three — not "exactly two" — passes the
check and is invoked. -/
theorem arity_check_counterexample :
    fnThreeParams.paramCount ≠ 2 ∧
    run_preprocessor_model (some fnThreeParams) = (.ok "payload", true) := by
  exact ⟨by decide, rfl⟩

/-- C6 (amended): the pre-invocation signature check rejects exactly the
functions declared with fewer than two parameters, with a signature error
and without ever invoking them; any function with at least two declared
parameters passes the check and is invoked. -/
theorem arity_check_lower_bound (fn : SandboxFn) :
    (fn.paramCount < 2 →
      run_preprocessor_model (some fn) = (.signatureError, false)) ∧
    (2 ≤ fn.paramCount → (run_preprocessor_model (some fn)).2 = true) := by
  obtain ⟨p, co⟩ := fn
  constructor
  · intro h
    simp only [run_preprocessor_model]
    rw [if_pos h]
  · intro h
    simp only [run_preprocessor_model]
    rw [if_neg (Nat.not_lt.mpr h)]
    cases co <;> rfl

/-- A pre-process function declared with a single parameter. -/
def fnOneParam : SandboxFn :=
  ⟨1, .ok "never-returned"⟩

/-- Witness for the amended C6 contract: the one-parameter function is
rejected with a signature error and never invoked. -/
theorem arity_check_lower_bound_witness :
    run_preprocessor_model (some fnOneParam) = (.signatureError, false) :=
  (arity_check_lower_bound fnOneParam).1 (by decide)

/-- An adapter body with an ordinary statement before a disallowed
import. -/
def progPriorStmt : List AdapterStmt :=
  [AdapterStmt.effect "derive-rows", AdapterStmt.impMod "os"]

/-- C7 counterexample: the disallowed import does raise the import error,
but the statement placed before it has already executed — so the error is
not raised before any other statement of the adapter body executes. -/
theorem import_block_counterexample :
    (execAdapterBody progPriorStmt).2 = some (disallowedImportMsg "os") ∧
    (execAdapterBody progPriorStmt).1 = ["derive-rows"] := by
  exact ⟨rfl, rfl⟩

/-- C7 (amended): importing a module outside the allow-list raises the
disallowed-import error at the position of the import statement itself: when every
earlier statement executes without raising, exactly those earlier effects
are observable, the error is raised, and no statement after the import runs. -/
theorem import_block_at_position (pre post : List AdapterStmt) (m : String)
    (hm : m ∉ safe_modules) (hpre : ∀ s ∈ pre, stmtAllowed s = true) :
    execAdapterBody (pre ++ AdapterStmt.impMod m :: post) =
      (pre.map stmtEffect, some (disallowedImportMsg m)) := by
  induction pre with
  | nil =>
      simp [execAdapterBody, hm]
  | cons s rest ih =>
      have hrest : ∀ t ∈ rest, stmtAllowed t = true := fun t ht => hpre t (by simp [ht])
      cases s with
      | effect tag =>
          simp [execAdapterBody, stmtEffect, ih hrest]
      | impMod mm =>
          have hmm : mm ∈ safe_modules := by
            simpa [stmtAllowed] using hpre (AdapterStmt.impMod mm) (by simp)
          simp [execAdapterBody, hmm, stmtEffect, ih hrest]

/-- Witness for the amended C7 property: an allowed statement, then a
disallowed import, then an unreached statement. -/
theorem import_block_at_position_witness :
    execAdapterBody
        [AdapterStmt.effect "a", AdapterStmt.impMod "socket", AdapterStmt.effect "b"] =
      (["a"], some (disallowedImportMsg "socket")) :=
  import_block_at_position [AdapterStmt.effect "a"] [AdapterStmt.effect "b"] "socket"
    (by decide) (by decide)

theorem mutations_preserve_cell_zero (muts : List (JVal → JVal)) :
    ∀ h : PyHeap, h.bop_ptr ≠ 0 →
      (muts.foldl (fun h f => mutateBop f h) h).cell 0 = h.cell 0 := by
  induction muts with
  | nil =>
      intro h _
      rfl
  | cons f rest ih =>
      intro h hp
      rw [List.foldl_cons]
      rw [ih (mutateBop f h) hp]
      exact Function.update_noteq (Ne.symm hp) _ _

/-- C10: `execute_tool` rebinds `bop_data` to a deep copy before any phase
runs, so whatever in-place mutations the adapter code applies to its object,
the caller cell (address 0) still holds the original value afterwards. -/
theorem caller_bop_unchanged (muts : List (JVal → JVal)) (caller : JVal) :
    (executeToolHeap muts caller).cell 0 = caller := by
  unfold executeToolHeap
  rw [mutations_preserve_cell_zero muts (deepcopyBop (initHeap caller))
    (by simp [deepcopyBop, initHeap])]
  simp [deepcopyBop, initHeap, Function.update_noteq]

end GdpExec
